import Mathlib

/-!
SpGEMM through the MKL sparse-BLAS backend.

Shallow embedding of `src/sparse/impl/KokkosSparse_spgemm_mkl_impl.hpp`
(`mkl_call`, `MKLSparseMatrix`, `MKLApply::mkl_symbolic`, `MKLApply::mkl_numeric`,
`MKLApply::apply`).

Conventions of the embedding.

* A Kokkos view or a raw array is a `List`; its extent is the list length.
* Integers (`nnz_lno_t`, `size_type`, `MKL_INT`) are mathematical `Int`s; the one
  narrowing conversion of the source (`size_type` to `int` in the scratch row maps) is
  modelled with explicit wrap-around (`narrow`).
* The MKL library is a record of functions (`Backend`); a non-success status is `none`
  (or `false` for `mkl_sparse_destroy`).
* A C++ exception is a `Status.error`; the memory reachable by the caller at that moment
  is returned next to it, together with the trace of observable events.
* Reading or copying past the extent of a view is undefined in the source; the model
  stops there with `Err.viewBounds`.
* Timers and the `verbose` printing have no effect on any result and are left out.
* The header is embedded as built with `KOKKOSKERNELS_ENABLE_TPL_MKL`; the free functions
  `mkl_symbolic` and `mkl_apply` at its end only forward to `MKLApply`.
* `Config` holds the two `std::is_same` facts the code branches on; the instantiation
  generated in this repository has `nnz_lno_t = int` and `size_type = size_t`, that is
  `⟨true, false⟩`.
-/

namespace KokkosSparse.Impl

/-- The two compile-time facts `MKLApply::apply` branches on:
`std::is_same<nnz_lno_t, int>::value` and `std::is_same<size_type, int>::value`. -/
structure Config where
  lnoIsInt : Bool
  sizeIsInt : Bool
deriving DecidableEq, Repr

/-- Constant `MKLApply::max_integer`. -/
def max_integer : Int := 2147483647

/-- The `std::runtime_error`s of the file, one constructor per message, and
`viewBounds` for an access outside a view (undefined behaviour in the source). -/
inductive Err
  /-- Message "MKL requires local ordinals to be integer." -/
  | ordinalNotInt
  /-- Message "MKL requires integer values for size type for SPGEMM. Copying to integer
  will cause overflow." -/
  | overflow
  /-- Message "MKL either transpose both matrices, or none for SPGEMM". -/
  | illegalTranspose
  /-- Message "mkl_sparse_s_create_csr() failed!" or "mkl_sparse_d_create_csr() failed!". -/
  | createFailed
  /-- Message "mkl_sparse_spmm() failed!". -/
  | spmmFailed
  /-- Message "Failed to export matrix with mkl_sparse_s_export_csr()!". -/
  | exportFailed
  /-- Message "Expected zero based indexing in exported MKL sparse matrix". -/
  | indexBase
  /-- Message "mkl_sparse_destroy() failed!". -/
  | destroyFailed
  /-- An access outside the extent of a view or exported array. -/
  | viewBounds
deriving DecidableEq, Repr

/-- Outcome of a call: normal return or a thrown error. -/
inductive Status
  | success
  | error (e : Err)
deriving DecidableEq, Repr

/-- MKL operation code: `SPARSE_OPERATION_NON_TRANSPOSE` or `SPARSE_OPERATION_TRANSPOSE`. -/
inductive sparse_operation_t
  | non_transpose
  | transpose
deriving DecidableEq, Repr

/-- Which of the three native handles of one call an event is about. -/
inductive Operand
  | A
  | B
  | C
deriving DecidableEq, Repr

/-- Caller buffer a `copy` writes to. -/
inductive Buffer
  | rowmap
  | entries
  | values
deriving DecidableEq, Repr

/-- Observable events of one call, in program order. A backend call is recorded with
its arguments, among them the handles it is made on, and with its status (`ok = false`
for a non-success status). -/
inductive Event (V H : Type)
  /-- Allocation of `tmp_values` in `mkl_symbolic`, with its extent. -/
  | alloc_tmp_values (extent : Nat)
  /-- Evaluation of the `max_integer` test of `apply`. -/
  | overflow_guard (pass : Bool)
  /-- Allocation of the scratch row map `tmpa` / `tmpb`. -/
  | alloc_xadj (who : Operand) (extent : Int)
  /-- `Kokkos::deep_copy` of a row map into its scratch buffer. -/
  | deep_copy_xadj (who : Operand)
  /-- Call of `mkl_sparse_?_create_csr` with these arguments. -/
  | create_csr (who : Operand) (rows cols : Int) (xadj adj : List Int) (values : List V)
      (ok : Bool)
  /-- Call of `mkl_sparse_spmm` on these two handles. -/
  | spmm (op : sparse_operation_t) (A B : H) (ok : Bool)
  /-- Call of `mkl_sparse_?_export_csr` on this handle. -/
  | export_csr (mtx : H) (ok : Bool)
  /-- Call of `copy(num_elems, from, to)` into a caller buffer. -/
  | copy_vector (dst : Buffer) (num_elems : Int)
  /-- Call of `mkl_sparse_destroy` on this handle. -/
  | destroy (who : Operand) (mtx : H) (ok : Bool)
deriving DecidableEq, Repr

/-- What `mkl_sparse_?_export_csr` hands back: the indexing base (as "is it zero"),
the dimensions and the four arrays, all owned by the handle. -/
structure Exported (V : Type) where
  zeroBased : Bool
  rows : Int
  cols : Int
  rows_start : List Int
  rows_end : List Int
  columns : List Int
  values : List V
deriving DecidableEq, Repr

/-- The MKL entry points used by the file, over handles of type `H`
(`sparse_matrix_t`). `none` / `false` is a status other than
`SPARSE_STATUS_SUCCESS`. -/
structure Backend (V : Type) (H : Type) where
  create_csr : Int → Int → List Int → List Int → List V → Option H
  spmm : sparse_operation_t → H → H → Option H
  export_csr : H → Option (Exported V)
  destroy : H → Bool

/-- Modelled from the spec: the kernel handle collaborator (its class is declared
outside this header): it records the output nnz (`set_c_nnz`) and carries the flag that
says whether output is materialised (`mkl_keep_output`). -/
structure KernelHandle where
  c_nnz : Int
  mkl_keep_output : Bool
deriving DecidableEq, Repr

/-- Member `KernelHandle::set_c_nnz`. -/
def KernelHandle.set_c_nnz (h : KernelHandle) (nnz : Int) : KernelHandle :=
  { h with c_nnz := nnz }

/-- Everything of the caller that a call may write: the kernel handle and the three
output views of C. -/
structure Mem (V : Type) where
  handle : KernelHandle
  row_mapC : List Int
  entriesC : List Int
  valuesC : List V
deriving DecidableEq, Repr

/-- Result of running a piece of the program: how it ended, what it did, and the
caller memory at that moment. -/
structure Run (V H : Type) where
  status : Status
  trace : List (Event V H)
  out : Mem V
deriving DecidableEq, Repr

/-- Function `mkl_call`: throw `err_msg` unless the status is success. -/
def mkl_call (result : Bool) (err_msg : Err) : Except Err Unit :=
  if result then .ok () else .error err_msg

namespace MKLSparseMatrix

variable {V H : Type}

/-- Constructor `MKLSparseMatrix(m, n, xadj, adj, values)`. -/
def create (bk : Backend V H) (rows cols : Int) (xadj adj : List Int) (values : List V) :
    Except Err H :=
  match bk.create_csr rows cols xadj adj values with
  | some mtx => .ok mtx
  | none => .error .createFailed

/-- Static member `MKLSparseMatrix::spmm`. -/
def spmm (bk : Backend V H) (operation : sparse_operation_t) (A B : H) : Except Err H :=
  match bk.spmm operation A B with
  | some c => .ok c
  | none => .error .spmmFailed

/-- Member `MKLSparseMatrix::get`: export, then insist on zero-based indexing. -/
def get (bk : Backend V H) (mtx : H) : Except Err (Exported V) :=
  match bk.export_csr mtx with
  | none => .error .exportFailed
  | some ex => if ex.zeroBased then .ok ex else .error .indexBase

/-- Member `MKLSparseMatrix::destroy`. -/
def destroy (bk : Backend V H) (mtx : H) : Except Err Unit :=
  mkl_call (bk.destroy mtx) .destroyFailed

end MKLSparseMatrix

/-- Conversion of a `size_type` value to `int` (32 bits, two's complement). -/
def narrow (x : Int) : Int := (x + 2147483648) % 4294967296 - 2147483648

/-- Modelled from the spec: `KokkosKernels::Impl::copy_vector` (defined outside this
header), the bulk copy of `num_elems` leading elements of `src` over those of `dst`.
`none` when `num_elems` (a `size_t` in the source) exceeds one of the extents. -/
def copy_vector {α : Type} (num_elems : Int) (src dst : List α) : Option (List α) :=
  if 0 ≤ num_elems ∧ num_elems.toNat ≤ src.length ∧ num_elems.toNat ≤ dst.length then
    some (src.take num_elems.toNat ++ dst.drop num_elems.toNat)
  else none

namespace MKLApply

variable {V H : Type}

/-- The test `m < 1 || n < 1 || k < 1 || row_mapA(m) < 1 || row_mapB(n) < 1` that opens
both `mkl_symbolic` and `apply`, with its short-circuit order. `none` when a row map
is read past its extent. -/
def is_degenerate (m n k : Int) (row_mapA row_mapB : List Int) : Option Bool :=
  if m < 1 ∨ n < 1 ∨ k < 1 then some true
  else
    match row_mapA[m.toNat]? with
    | none => none
    | some a =>
      if a < 1 then some true
      else
        match row_mapB[n.toNat]? with
        | none => none
        | some b => some (decide (b < 1))

/-- Row maps handed to MKL, with the status and events of producing them. -/
structure Bridged (V H : Type) where
  status : Status
  trace : List (Event V H)
  a_xadj : List Int
  b_xadj : List Int

/-- Lines 259-286 of `apply`: when `size_type` is `int` the row maps are used in place;
otherwise the `max_integer` test runs, then `tmpa` (extent `m + 1`) and `tmpb` (extent
`n + 1`) are allocated and filled by `Kokkos::deep_copy`, which needs equal extents. -/
def bridge (cfg : Config) (m n : Int) (row_mapA entriesA row_mapB entriesB : List Int) :
    Bridged V H :=
  if cfg.sizeIsInt then
    { status := .success, trace := [], a_xadj := row_mapA, b_xadj := row_mapB }
  else if (entriesA.length : Int) > max_integer ∨ (entriesB.length : Int) > max_integer then
    { status := .error .overflow, trace := [.overflow_guard false],
      a_xadj := row_mapA, b_xadj := row_mapB }
  else if (row_mapA.length : Int) = m + 1 ∧ (row_mapB.length : Int) = n + 1 then
    { status := .success,
      trace := [.overflow_guard true, .alloc_xadj .A (m + 1), .alloc_xadj .B (n + 1),
                .deep_copy_xadj .A, .deep_copy_xadj .B],
      a_xadj := row_mapA.map narrow, b_xadj := row_mapB.map narrow }
  else
    { status := .error .viewBounds,
      trace := [.overflow_guard true, .alloc_xadj .A (m + 1), .alloc_xadj .B (n + 1)],
      a_xadj := row_mapA, b_xadj := row_mapB }

/-- Lines 295-303 of `apply`: the operation code, or nothing for a mixed pair. -/
def operation (transposeA transposeB : Bool) : Option sparse_operation_t :=
  if transposeA && transposeB then some .transpose
  else if !(transposeA || transposeB) then some .non_transpose
  else none

/-- Lines 323-325 of `apply`: `A.destroy(); B.destroy(); C.destroy();`. -/
def destroy_all (bk : Backend V H) (hA hB hC : H) : Status × List (Event V H) :=
  match MKLSparseMatrix.destroy bk hA with
  | .error e => (.error e, [.destroy .A hA false])
  | .ok _ =>
    match MKLSparseMatrix.destroy bk hB with
    | .error e => (.error e, [.destroy .A hA true, .destroy .B hB false])
    | .ok _ =>
      match MKLSparseMatrix.destroy bk hC with
      | .error e =>
        (.error e, [.destroy .A hA true, .destroy .B hB true, .destroy .C hC false])
      | .ok _ =>
        (.success, [.destroy .A hA true, .destroy .B hB true, .destroy .C hC true])

/-- Function `MKLApply::apply`. The callback receives `m` and the three exported
arrays and acts on the caller memory. -/
def apply (cfg : Config) (bk : Backend V H) (m n k : Int)
    (row_mapA entriesA : List Int) (valuesA : List V) (transposeA : Bool)
    (row_mapB entriesB : List Int) (valuesB : List V) (transposeB : Bool)
    (callback : Int → List Int → List Int → List V → Mem V → Run V H) (mem : Mem V) : Run V H :=
  if !cfg.lnoIsInt then ⟨.error .ordinalNotInt, [], mem⟩
  else
    match is_degenerate m n k row_mapA row_mapB with
    | none => ⟨.error .viewBounds, [], mem⟩
    | some true => ⟨.success, [], mem⟩
    | some false =>
      let br : Bridged V H := bridge cfg m n row_mapA entriesA row_mapB entriesB
      match br.status with
      | .error e => ⟨.error e, br.trace, mem⟩
      | .success =>
        let evA := Event.create_csr .A m n br.a_xadj entriesA valuesA
        let evB := Event.create_csr .B n k br.b_xadj entriesB valuesB
        match MKLSparseMatrix.create bk m n br.a_xadj entriesA valuesA with
        | .error e => ⟨.error e, br.trace ++ [evA false], mem⟩
        | .ok hA =>
          match MKLSparseMatrix.create bk n k br.b_xadj entriesB valuesB with
          | .error e => ⟨.error e, br.trace ++ [evA true, evB false], mem⟩
          | .ok hB =>
            match operation transposeA transposeB with
            | none => ⟨.error .illegalTranspose, br.trace ++ [evA true, evB true], mem⟩
            | some op =>
              match MKLSparseMatrix.spmm bk op hA hB with
              | .error e =>
                ⟨.error e, br.trace ++ [evA true, evB true, .spmm op hA hB false], mem⟩
              | .ok hC =>
                match MKLSparseMatrix.get bk hC with
                | .error e =>
                  ⟨.error e,
                   br.trace ++ [evA true, evB true, .spmm op hA hB true,
                                .export_csr hC (bk.export_csr hC).isSome], mem⟩
                | .ok ex =>
                  let pre := br.trace ++
                    [evA true, evB true, .spmm op hA hB true, .export_csr hC true]
                  let cb := callback m ex.rows_start ex.columns ex.values mem
                  match cb.status with
                  | .error e => ⟨.error e, pre ++ cb.trace, cb.out⟩
                  | .success =>
                    let d := destroy_all bk hA hB hC
                    ⟨d.1, pre ++ cb.trace ++ d.2, cb.out⟩

/-- The lambda `export_rowmap` of `mkl_symbolic`. -/
def export_rowmap (m : Int) (rows_start _columns : List Int) (_values : List V)
    (mem : Mem V) : Run V H :=
  if mem.handle.mkl_keep_output then
    match rows_start[m.toNat]? with
    | none => ⟨.error .viewBounds, [], mem⟩
    | some nnz =>
      let mem1 : Mem V := { mem with handle := mem.handle.set_c_nnz nnz }
      match copy_vector (m + 1) rows_start mem1.row_mapC with
      | none => ⟨.error .viewBounds, [], mem1⟩
      | some rm => ⟨.success, [.copy_vector .rowmap (m + 1)], { mem1 with row_mapC := rm }⟩
  else ⟨.success, [], mem⟩

/-- The lambda `export_values` of `mkl_numeric`. -/
def export_values (m : Int) (rows_start columns : List Int) (values : List V)
    (mem : Mem V) : Run V H :=
  if mem.handle.mkl_keep_output then
    match rows_start[m.toNat]? with
    | none => ⟨.error .viewBounds, [], mem⟩
    | some nnz =>
      match copy_vector nnz columns mem.entriesC with
      | none => ⟨.error .viewBounds, [], mem⟩
      | some ec =>
        let mem1 : Mem V := { mem with entriesC := ec }
        match copy_vector nnz values mem1.valuesC with
        | none => ⟨.error .viewBounds, [.copy_vector .entries nnz], mem1⟩
        | some vc =>
          ⟨.success, [.copy_vector .entries nnz, .copy_vector .values nnz],
           { mem1 with valuesC := vc }⟩
  else ⟨.success, [], mem⟩

/-- Function `MKLApply::mkl_symbolic`. `tmp_values` is the content of the scratch value
view, allocated without initialising, of extent
`max (entriesA.extent(0)) (entriesB.extent(0))`. -/
def mkl_symbolic (cfg : Config) (bk : Backend V H) (mem : Mem V) (m n k : Int)
    (row_mapA entriesA : List Int) (transposeA : Bool)
    (row_mapB entriesB : List Int) (transposeB : Bool) (tmp_values : List V) : Run V H :=
  match is_degenerate m n k row_mapA row_mapB with
  | none => ⟨.error .viewBounds, [], mem⟩
  | some true =>
    ⟨.success, [],
     { mem with handle := mem.handle.set_c_nnz 0,
                row_mapC := List.replicate mem.row_mapC.length 0 }⟩
  | some false =>
    let r := apply cfg bk m n k row_mapA entriesA tmp_values transposeA
      row_mapB entriesB tmp_values transposeB export_rowmap mem
    ⟨r.status, .alloc_tmp_values (max entriesA.length entriesB.length) :: r.trace, r.out⟩

/-- Function `MKLApply::mkl_numeric`. -/
def mkl_numeric (cfg : Config) (bk : Backend V H) (mem : Mem V) (m n k : Int)
    (row_mapA entriesA : List Int) (valuesA : List V) (transposeA : Bool)
    (row_mapB entriesB : List Int) (valuesB : List V) (transposeB : Bool) : Run V H :=
  apply cfg bk m n k row_mapA entriesA valuesA transposeA
    row_mapB entriesB valuesB transposeB export_values mem

end MKLApply

/-! Measures on traces. -/

section Traces

variable {V H : Type}

/-- A native handle came into being: a successful `create_csr`, or a successful `spmm`
(which returns the product handle). -/
def Event.isCreation : Event V H → Bool
  | .create_csr _ _ _ _ _ _ ok => ok
  | .spmm _ _ _ ok => ok
  | _ => false

/-- A call of `mkl_sparse_destroy`. -/
def Event.isDestroy : Event V H → Bool
  | .destroy _ _ _ => true
  | _ => false

/-- Any call into the backend: create, multiply, export or destroy. -/
def Event.isBackendCall : Event V H → Bool
  | .create_csr _ _ _ _ _ _ _ => true
  | .spmm _ _ _ _ => true
  | .export_csr _ _ => true
  | .destroy _ _ _ => true
  | _ => false

/-- An allocation of, or a bulk copy into, a narrowed row-map scratch buffer. -/
def Event.isRowmapBridge : Event V H → Bool
  | .alloc_xadj _ _ => true
  | .deep_copy_xadj _ => true
  | _ => false

/-- Number of native handles created during a trace. -/
def creations (tr : List (Event V H)) : Nat := tr.countP Event.isCreation

/-- Number of destroy calls made during a trace. -/
def destroys (tr : List (Event V H)) : Nat := tr.countP Event.isDestroy

/-- The backend calls of a trace, in order. -/
def backend_calls (tr : List (Event V H)) : List (Event V H) := tr.filter Event.isBackendCall

/-- A scratch buffer is allocated or filled: the placeholder value view of
`mkl_symbolic`, or a narrowed row map of `apply`. -/
def Event.isScratch : Event V H → Bool
  | .alloc_tmp_values _ => true
  | .alloc_xadj _ _ => true
  | .deep_copy_xadj _ => true
  | _ => false

/-- The operand and the row-pointer buffer that a create call hands to the backend. -/
def Event.handed_xadj : Event V H → Option (Operand × List Int)
  | .create_csr who _ _ xadj _ _ _ => some (who, xadj)
  | _ => none

end Traces

/-- Modelled from the spec: the data-model invariant of a CSR row pointer (section 3 of
the specification; the header itself states no such invariant): extent `rows + 1`,
first entry 0, non-decreasing, last entry equal to the extent of the entry array. -/
def csr_row_map (rows : Int) (row_map entries : List Int) : Prop :=
  (row_map.length : Int) = rows + 1 ∧ row_map.head? = some 0 ∧
  row_map.Pairwise (· ≤ ·) ∧ row_map.getLast? = some (entries.length : Int)

/-- A CSR matrix held by a mock backend handle. -/
structure Csr where
  rows : Int
  cols : Int
  xadj : List Int
  adj : List Int
  values : List Int
deriving DecidableEq, Repr

namespace Mock

/-- Row `i` of a CSR matrix as (column, value) pairs. -/
def row (M : Csr) (i : Nat) : List (Int × Int) :=
  let s := (M.xadj.getD i 0).toNat
  let e := (M.xadj.getD (i + 1) 0).toNat
  ((M.adj.zip M.values).drop s).take (e - s)

/-- Add `v` at column `c` of a row kept sorted by column. -/
def add_entry : List (Int × Int) → Int → Int → List (Int × Int)
  | [], c, v => [(c, v)]
  | (c1, v1) :: t, c, v =>
    if c = c1 then (c1, v1 + v) :: t
    else if c < c1 then (c, v) :: (c1, v1) :: t
    else (c1, v1) :: add_entry t c v

/-- Row `i` of the product A·B. -/
def product_row (A B : Csr) (i : Nat) : List (Int × Int) :=
  (row A i).foldl
    (fun acc e => (row B e.1.toNat).foldl (fun acc f => add_entry acc f.1 (e.2 * f.2)) acc) []

/-- Row pointer of a list of rows, starting at `s`. -/
def offsets {α : Type} : Int → List (List α) → List Int
  | s, [] => [s]
  | s, r :: rs => s :: offsets (s + r.length) rs

/-- Assemble a CSR matrix from its rows. -/
def of_rows (rows cols : Int) (rs : List (List (Int × Int))) : Csr :=
  let all := rs.foldr (· ++ ·) []
  { rows := rows, cols := cols, xadj := offsets 0 rs,
    adj := all.map Prod.fst, values := all.map Prod.snd }

/-- Transposed matrix. -/
def transpose (M : Csr) : Csr :=
  of_rows M.cols M.rows
    ((List.range M.cols.toNat).map fun c =>
      (List.range M.rows.toNat).foldr
        (fun i acc => (((row M i).filter fun e => e.1 = (c : Int)).map fun e => ((i : Int), e.2))
          ++ acc) [])

/-- Product op(A)·op(B); `keep` selects the entries of each row that are stored. -/
def multiply (keep : Int × Int → Bool) (op : sparse_operation_t) (A B : Csr) : Csr :=
  match op with
  | .non_transpose =>
    of_rows A.rows B.cols
      ((List.range A.rows.toNat).map fun i => (product_row A B i).filter keep)
  | .transpose =>
    of_rows A.cols B.rows
      ((List.range A.cols.toNat).map fun i =>
        (product_row (transpose A) (transpose B) i).filter keep)

/-- Export of a mock handle, zero-based. -/
def export_csr (M : Csr) : Exported Int :=
  { zeroBased := true, rows := M.rows, cols := M.cols, rows_start := M.xadj,
    rows_end := M.xadj.drop 1, columns := M.adj, values := M.values }

/-- A correct backend: every call succeeds and the product keeps every structural
entry. -/
def backend : Backend Int Csr :=
  { create_csr := fun rows cols xadj adj values => some ⟨rows, cols, xadj, adj, values⟩,
    spmm := fun op A B => some (multiply (fun _ => true) op A B),
    export_csr := fun M => some (export_csr M),
    destroy := fun _ => true }

/-- The correct backend, except that `mkl_sparse_spmm` reports a failure. -/
def spmm_fails : Backend Int Csr := { backend with spmm := fun _ _ _ => none }

/-- The correct backend, except that `mkl_sparse_destroy` reports a failure. -/
def destroy_fails : Backend Int Csr := { backend with destroy := fun _ => false }

/-- Caller memory before a call: nnz 0, keep-output set, buffers of the given sizes
holding the marker 7. -/
def mem0 (nrow nnz : Nat) : Mem Int :=
  { handle := { c_nnz := 0, mkl_keep_output := true },
    row_mapC := List.replicate nrow 7, entriesC := List.replicate nnz 7,
    valuesC := List.replicate nnz 7 }

/-- Row pointer of a 2 x 2^30 matrix with both rows full: 2^31 entries in all. -/
def big_row_mapA : List Int := [0, 1073741824, 2147483648]

/-- Column indices of that matrix: `0 .. 2^30 - 1`, twice. -/
@[irreducible]
def big_entriesA : List Int :=
  (List.range 1073741824).map Int.ofNat ++ (List.range 1073741824).map Int.ofNat

/-- Values of that matrix: all one. -/
@[irreducible]
def big_valuesA : List Int := List.replicate 2147483648 1

/-- Row pointer of a 2^30 x 1 matrix with one entry in every row. -/
@[irreducible]
def big_row_mapB : List Int := (List.range 1073741825).map Int.ofNat

/-- Column indices of that matrix: all zero. -/
@[irreducible]
def big_entriesB : List Int := List.replicate 1073741824 0

/-- Values of that matrix: all one. -/
@[irreducible]
def big_valuesB : List Int := List.replicate 1073741824 1

/-- Some content of a scratch value view of extent 2^31. -/
@[irreducible]
def big_tmp_values : List Int := List.replicate 2147483648 0

end Mock

/-! Auxiliary facts. -/

namespace MKLApply

variable {V H : Type}

/-- A dimension below one makes the opening test succeed without reading a row map. -/
theorem is_degenerate_of_dim {m n k : Int} (row_mapA row_mapB : List Int)
    (h : m < 1 ∨ n < 1 ∨ k < 1) : is_degenerate m n k row_mapA row_mapB = some true := by
  simp [is_degenerate, h]

/-- The opening test succeeds on the inputs with an empty operand, as long as the read
of `row_mapA(m)` stays inside the view. -/
theorem is_degenerate_of_empty {m n k : Int} {row_mapA row_mapB : List Int}
    (hA : m.toNat < row_mapA.length)
    (h : m = 0 ∨ k = 0 ∨ row_mapA[m.toNat]? = some 0 ∨ row_mapB[n.toNat]? = some 0) :
    is_degenerate m n k row_mapA row_mapB = some true := by
  unfold is_degenerate
  split_ifs with hd
  · rfl
  · have hget : row_mapA[m.toNat]? = some (row_mapA[m.toNat]) := List.getElem?_eq_getElem hA
    rcases h with h | h | h | h
    · exact absurd (by omega) hd
    · exact absurd (by omega) hd
    · simp [h]
    · rw [hget]
      simp only [h]
      split_ifs <;> simp

/-- Bridging creates and destroys no handle and makes no backend call. -/
theorem bridge_no_backend (cfg : Config) (m n : Int)
    (row_mapA entriesA row_mapB entriesB : List Int) :
    creations (bridge cfg m n row_mapA entriesA row_mapB entriesB : Bridged V H).trace = 0 ∧
    destroys (bridge cfg m n row_mapA entriesA row_mapB entriesB : Bridged V H).trace = 0 ∧
    backend_calls (bridge cfg m n row_mapA entriesA row_mapB entriesB : Bridged V H).trace = [] := by
  unfold bridge
  split_ifs <;>
    simp [creations, destroys, backend_calls, Event.isCreation, Event.isDestroy,
      Event.isBackendCall]

/-- The three destroy calls: their number never exceeds three, and is three on success. -/
theorem destroy_all_count (bk : Backend V H) (hA hB hC : H) :
    creations (destroy_all bk hA hB hC : Status × List (Event V H)).2 = 0 ∧
    destroys (destroy_all bk hA hB hC : Status × List (Event V H)).2 ≤ 3 ∧
    ((destroy_all bk hA hB hC : Status × List (Event V H)).1 = .success →
      destroys (destroy_all bk hA hB hC : Status × List (Event V H)).2 = 3) := by
  unfold destroy_all
  split
  · simp [creations, destroys, Event.isCreation, Event.isDestroy]
  · split
    · simp [creations, destroys, Event.isCreation, Event.isDestroy]
    · split <;> simp [creations, destroys, Event.isCreation, Event.isDestroy]

/-- Balance of `apply` for a callback that touches no handle: destroy calls never exceed
creations, and they are equal on a normal return. -/
theorem apply_balance (cfg : Config) (bk : Backend V H) (m n k : Int)
    (row_mapA entriesA : List Int) (valuesA : List V) (transposeA : Bool)
    (row_mapB entriesB : List Int) (valuesB : List V) (transposeB : Bool)
    (callback : Int → List Int → List Int → List V → Mem V → Run V H) (mem : Mem V)
    (hcb : ∀ a b c d e, creations (callback a b c d e).trace = 0 ∧
      destroys (callback a b c d e).trace = 0) :
    destroys (apply cfg bk m n k row_mapA entriesA valuesA transposeA
        row_mapB entriesB valuesB transposeB callback mem).trace
      ≤ creations (apply cfg bk m n k row_mapA entriesA valuesA transposeA
        row_mapB entriesB valuesB transposeB callback mem).trace ∧
    ((apply cfg bk m n k row_mapA entriesA valuesA transposeA
        row_mapB entriesB valuesB transposeB callback mem).status = .success →
      creations (apply cfg bk m n k row_mapA entriesA valuesA transposeA
        row_mapB entriesB valuesB transposeB callback mem).trace
      = destroys (apply cfg bk m n k row_mapA entriesA valuesA transposeA
        row_mapB entriesB valuesB transposeB callback mem).trace) := by
  obtain ⟨h1, h2, -⟩ := bridge_no_backend (V := V) (H := H) cfg m n row_mapA entriesA row_mapB entriesB
  unfold apply
  generalize bridge cfg m n row_mapA entriesA row_mapB entriesB = br at h1 h2 ⊢
  simp only [creations, destroys] at h1 h2 hcb ⊢
  split_ifs
  · simp
  · repeat' split
    all_goals first
      | (simp [List.countP_append, Event.isCreation, Event.isDestroy, h1, h2, hcb]; done)
      | skip
    have hd := destroy_all_count (V := V) bk
    simp only [creations, destroys] at hd
    simp [List.countP_append, Event.isCreation, Event.isDestroy, h1, h2, hcb, hd]
    intro h
    exact ((hd _ _ _).2.2 h).symm

/-- The copy-out lambdas touch no handle and call no backend function. -/
theorem export_rowmap_no_backend (m : Int) (rows_start columns : List Int) (values : List V)
    (mem : Mem V) :
    creations (export_rowmap m rows_start columns values mem : Run V H).trace = 0 ∧
    destroys (export_rowmap m rows_start columns values mem : Run V H).trace = 0 ∧
    backend_calls (export_rowmap m rows_start columns values mem : Run V H).trace = [] := by
  simp only [export_rowmap]
  split_ifs
  · repeat' split
    all_goals simp [creations, destroys, backend_calls, Event.isCreation, Event.isDestroy,
      Event.isBackendCall]
  · simp [creations, destroys, backend_calls]

/-- The copy-out lambda of the numeric phase touches no handle either. -/
theorem export_values_no_backend (m : Int) (rows_start columns : List Int) (values : List V)
    (mem : Mem V) :
    creations (export_values m rows_start columns values mem : Run V H).trace = 0 ∧
    destroys (export_values m rows_start columns values mem : Run V H).trace = 0 ∧
    backend_calls (export_values m rows_start columns values mem : Run V H).trace = [] := by
  simp only [export_values]
  split_ifs
  · repeat' split
    all_goals simp [creations, destroys, backend_calls, Event.isCreation, Event.isDestroy,
      Event.isBackendCall]
  · simp [creations, destroys, backend_calls]

/-- A mixed transpose pair has no operation code. -/
theorem operation_mixed {transposeA transposeB : Bool} (h : transposeA ≠ transposeB) :
    operation transposeA transposeB = none := by
  cases transposeA <;> cases transposeB <;> simp_all [operation]

/-- Bridging succeeds when `size_type` is `int`, or when both entry counts are within
`max_integer` and the row maps have extents `m + 1` and `n + 1`. -/
theorem bridge_success {cfg : Config} {m n : Int}
    {row_mapA entriesA row_mapB entriesB : List Int}
    (h : cfg.sizeIsInt = true ∨
      ((entriesA.length : Int) ≤ max_integer ∧ (entriesB.length : Int) ≤ max_integer ∧
        (row_mapA.length : Int) = m + 1 ∧ (row_mapB.length : Int) = n + 1)) :
    (bridge cfg m n row_mapA entriesA row_mapB entriesB : Bridged V H).status = .success := by
  unfold bridge
  rcases h with h | ⟨h1, h2, h3, h4⟩
  · simp [h]
  · split_ifs with a b c
    · rfl
    · rcases b with b | b <;> omega
    · rfl
    · exact absurd ⟨h3, h4⟩ c

/-- The overflow guard stops bridging before any allocation or copy. -/
theorem bridge_overflow {cfg : Config} {m n : Int}
    {row_mapA entriesA row_mapB entriesB : List Int} (hs : cfg.sizeIsInt = false)
    (h : (entriesA.length : Int) > max_integer ∨ (entriesB.length : Int) > max_integer) :
    (bridge cfg m n row_mapA entriesA row_mapB entriesB : Bridged V H).status = .error .overflow ∧
    (bridge cfg m n row_mapA entriesA row_mapB entriesB : Bridged V H).trace
      = [.overflow_guard false] := by
  unfold bridge
  simp [hs, h]

/-- A failing destroy sequence fails with the destroy error. -/
theorem destroy_all_error (bk : Backend V H) (hA hB hC : H) (e : Err)
    (h : (destroy_all bk hA hB hC : Status × List (Event V H)).1 = .error e) :
    e = .destroyFailed := by
  unfold destroy_all MKLSparseMatrix.destroy mkl_call at h
  repeat' split at h
  all_goals simp_all
  all_goals (split_ifs at *; simp_all)

/-- What `apply` does on a mixed transpose pair once both operand handles exist. -/
theorem apply_illegal_transpose (cfg : Config) (bk : Backend V H) (m n k : Int)
    (row_mapA entriesA : List Int) (valuesA : List V) (transposeA : Bool)
    (row_mapB entriesB : List Int) (valuesB : List V) (transposeB : Bool)
    (callback : Int → List Int → List Int → List V → Mem V → Run V H) (mem : Mem V)
    (hl : cfg.lnoIsInt = true)
    (hnd : is_degenerate m n k row_mapA row_mapB = some false)
    (hbr : (bridge cfg m n row_mapA entriesA row_mapB entriesB : Bridged V H).status = .success)
    (hcreate : ∀ r c x a v, bk.create_csr r c x a v ≠ none)
    (ht : transposeA ≠ transposeB) :
    (apply cfg bk m n k row_mapA entriesA valuesA transposeA
        row_mapB entriesB valuesB transposeB callback mem).status = .error .illegalTranspose ∧
    backend_calls (apply cfg bk m n k row_mapA entriesA valuesA transposeA
        row_mapB entriesB valuesB transposeB callback mem).trace
      = [.create_csr .A m n
            (bridge cfg m n row_mapA entriesA row_mapB entriesB : Bridged V H).a_xadj
            entriesA valuesA true,
         .create_csr .B n k
            (bridge cfg m n row_mapA entriesA row_mapB entriesB : Bridged V H).b_xadj
            entriesB valuesB true] ∧
    (apply cfg bk m n k row_mapA entriesA valuesA transposeA
        row_mapB entriesB valuesB transposeB callback mem).out = mem := by
  obtain ⟨-, -, h3⟩ := bridge_no_backend (V := V) (H := H) cfg m n row_mapA entriesA row_mapB entriesB
  obtain ⟨hA, hcA⟩ := Option.ne_none_iff_exists'.mp
    (hcreate m n (bridge cfg m n row_mapA entriesA row_mapB entriesB : Bridged V H).a_xadj
      entriesA valuesA)
  obtain ⟨hB, hcB⟩ := Option.ne_none_iff_exists'.mp
    (hcreate n k (bridge cfg m n row_mapA entriesA row_mapB entriesB : Bridged V H).b_xadj
      entriesB valuesB)
  simp only [backend_calls] at h3
  simp [apply, hl, hnd, hbr, MKLSparseMatrix.create, hcA, hcB, operation_mixed ht,
    backend_calls, List.filter_append, h3, Event.isBackendCall]

/-- What `apply` does when the overflow guard fires. -/
theorem apply_overflow (cfg : Config) (bk : Backend V H) (m n k : Int)
    (row_mapA entriesA : List Int) (valuesA : List V) (transposeA : Bool)
    (row_mapB entriesB : List Int) (valuesB : List V) (transposeB : Bool)
    (callback : Int → List Int → List Int → List V → Mem V → Run V H) (mem : Mem V)
    (hnd : is_degenerate m n k row_mapA row_mapB = some false)
    (hs : cfg.sizeIsInt = false)
    (h : (entriesA.length : Int) > max_integer ∨ (entriesB.length : Int) > max_integer) :
    (apply cfg bk m n k row_mapA entriesA valuesA transposeA
        row_mapB entriesB valuesB transposeB callback mem).status
      = (if cfg.lnoIsInt then .error .overflow else .error .ordinalNotInt) ∧
    (apply cfg bk m n k row_mapA entriesA valuesA transposeA
        row_mapB entriesB valuesB transposeB callback mem).trace
      = (if cfg.lnoIsInt then [.overflow_guard false] else []) ∧
    (apply cfg bk m n k row_mapA entriesA valuesA transposeA
        row_mapB entriesB valuesB transposeB callback mem).out = mem := by
  obtain ⟨h1, h2⟩ := @bridge_overflow V H cfg m n row_mapA entriesA row_mapB entriesB hs h
  cases hl : cfg.lnoIsInt <;> simp [apply, hl, hnd, h1, h2]

/-- An error of `apply` other than a destroy failure or a bounds violation leaves the
caller memory as it was, for a callback that fails only on bounds. -/
theorem apply_error_untouched (cfg : Config) (bk : Backend V H) (m n k : Int)
    (row_mapA entriesA : List Int) (valuesA : List V) (transposeA : Bool)
    (row_mapB entriesB : List Int) (valuesB : List V) (transposeB : Bool)
    (callback : Int → List Int → List Int → List V → Mem V → Run V H) (mem : Mem V)
    (hcb : ∀ a b c d x e, (callback a b c d x).status = .error e → e = .viewBounds)
    (e : Err)
    (he : (apply cfg bk m n k row_mapA entriesA valuesA transposeA
        row_mapB entriesB valuesB transposeB callback mem).status = .error e)
    (h1 : e ≠ .destroyFailed) (h2 : e ≠ .viewBounds) :
    (apply cfg bk m n k row_mapA entriesA valuesA transposeA
        row_mapB entriesB valuesB transposeB callback mem).out = mem := by
  revert he
  unfold apply
  cases hl : cfg.lnoIsInt
  · simp
  cases hnd : is_degenerate m n k row_mapA row_mapB with
  | none => simp
  | some b =>
    cases b
    swap
    · simp
    generalize bridge cfg m n row_mapA entriesA row_mapB entriesB = br
    cases hbs : br.status with
    | error e1 => simp [hbs]
    | success =>
      cases hcA : MKLSparseMatrix.create bk m n br.a_xadj entriesA valuesA with
      | error e1 => simp [hbs, hcA]
      | ok hA =>
        cases hcB : MKLSparseMatrix.create bk n k br.b_xadj entriesB valuesB with
        | error e1 => simp [hbs, hcA, hcB]
        | ok hB =>
          cases hop : operation transposeA transposeB with
          | none => simp [hbs, hcA, hcB, hop]
          | some op =>
            cases hmul : MKLSparseMatrix.spmm bk op hA hB with
            | error e1 => simp [hbs, hcA, hcB, hop, hmul]
            | ok hC =>
              cases hget : MKLSparseMatrix.get bk hC with
              | error e1 => simp [hbs, hcA, hcB, hop, hmul, hget]
              | ok ex =>
                cases hcs : (callback m ex.rows_start ex.columns ex.values mem).status with
                | error e1 =>
                  have := hcb _ _ _ _ _ _ hcs
                  simp [hbs, hcA, hcB, hop, hmul, hget, hcs]
                  intro he
                  simp_all
                | success =>
                  simp only [Bool.not_true, Bool.false_eq_true, if_false, hbs, hcA, hcB, hop,
                    hmul, hget, hcs]
                  intro he
                  exact absurd (destroy_all_error (V := V) bk _ _ _ e he) h1

/-- The copy-out lambdas fail only on a bounds violation. -/
theorem export_rowmap_error (m : Int) (rows_start columns : List Int) (values : List V)
    (mem : Mem V) (e : Err)
    (h : (export_rowmap m rows_start columns values mem : Run V H).status = .error e) :
    e = .viewBounds := by
  simp only [export_rowmap] at h
  split_ifs at h
  repeat' split at h
  all_goals simp_all

/-- The copy-out lambda of the numeric phase fails only on a bounds violation. -/
theorem export_values_error (m : Int) (rows_start columns : List Int) (values : List V)
    (mem : Mem V) (e : Err)
    (h : (export_values m rows_start columns values mem : Run V H).status = .error e) :
    e = .viewBounds := by
  simp only [export_values] at h
  split_ifs at h
  repeat' split at h
  all_goals simp_all

/-- With a local ordinal type other than `int`, a non-degenerate call of either phase
ends in the ordinal-type error. -/
theorem ordinal_guard_first (cfg : Config) (bk : Backend V H) (mem : Mem V)
    (m n k : Int) (row_mapA entriesA : List Int) (valuesA : List V) (transposeA : Bool)
    (row_mapB entriesB : List Int) (valuesB : List V) (transposeB : Bool)
    (tmp_values : List V) (hl : cfg.lnoIsInt = false)
    (hnd : is_degenerate m n k row_mapA row_mapB = some false) :
    (mkl_symbolic cfg bk mem m n k row_mapA entriesA transposeA
        row_mapB entriesB transposeB tmp_values).status = .error .ordinalNotInt ∧
    (mkl_numeric cfg bk mem m n k row_mapA entriesA valuesA transposeA
        row_mapB entriesB valuesB transposeB).status = .error .ordinalNotInt := by
  simp [mkl_symbolic, mkl_numeric, apply, hl, hnd]

/-- A value between 0 and `max_integer` survives the conversion to `int`. -/
theorem narrow_eq_self {x : Int} (h0 : 0 ≤ x) (h1 : x ≤ max_integer) : narrow x = x := by
  unfold narrow
  unfold max_integer at h1
  omega

/-- In a non-decreasing list every element is at most the last one. -/
theorem le_getLast_of_pairwise :
    ∀ (l : List Int) (z : Int), l.Pairwise (· ≤ ·) → l.getLast? = some z → ∀ x ∈ l, x ≤ z
  | [], _, _, h, _, _ => by simp at h
  | [a], z, _, h, x, hx => by
    simp at h hx
    omega
  | a :: b :: t, z, hp, h, x, hx => by
    rw [List.getLast?_cons_cons] at h
    rw [List.pairwise_cons] at hp
    rcases List.mem_cons.mp hx with hxa | hxt
    · rw [hxa]
      exact hp.1 z (List.mem_of_getLast?_eq_some h)
    · exact le_getLast_of_pairwise (b :: t) z hp.2 h x hxt

/-- Every entry of a row pointer that satisfies the data-model invariant lies between 0
and the number of entries. -/
theorem csr_row_map_bounds {rows : Int} {row_map entries : List Int}
    (h : csr_row_map rows row_map entries) :
    ∀ x ∈ row_map, 0 ≤ x ∧ x ≤ (entries.length : Int) := by
  obtain ⟨-, hhead, hp, hlast⟩ := h
  intro x hx
  refine ⟨?_, le_getLast_of_pairwise row_map _ hp hlast x hx⟩
  cases row_map with
  | nil => simp at hx
  | cons a t =>
    simp only [List.head?_cons, Option.some.injEq] at hhead
    rw [List.pairwise_cons] at hp
    rcases List.mem_cons.mp hx with hxa | hxt
    · omega
    · have := hp.1 x hxt
      omega

/-- Narrowing a row pointer that satisfies the data-model invariant, when the number of
entries is within `max_integer`, changes no element. -/
theorem map_narrow_csr {rows : Int} {row_map entries : List Int}
    (h : csr_row_map rows row_map entries) (hmax : (entries.length : Int) ≤ max_integer) :
    row_map.map narrow = row_map ∧ ∀ x ∈ row_map, narrow x = x := by
  have hb := csr_row_map_bounds h
  have hx : ∀ x ∈ row_map, narrow x = x := fun x hx =>
    narrow_eq_self (hb x hx).1 (le_trans (hb x hx).2 hmax)
  refine ⟨?_, hx⟩
  calc row_map.map narrow = row_map.map id := List.map_congr_left hx
    _ = row_map := List.map_id row_map

/-- Bridging hands no buffer to the backend. -/
theorem bridge_handed (cfg : Config) (m n : Int)
    (row_mapA entriesA row_mapB entriesB : List Int) :
    (bridge cfg m n row_mapA entriesA row_mapB entriesB : Bridged V H).trace.filterMap
      Event.handed_xadj = [] := by
  unfold bridge
  split_ifs <;> simp [Event.handed_xadj]

/-- The destroy sequence hands no buffer to the backend. -/
theorem destroy_all_handed (bk : Backend V H) (hA hB hC : H) :
    (destroy_all bk hA hB hC : Status × List (Event V H)).2.filterMap Event.handed_xadj = [] := by
  unfold destroy_all
  repeat' split
  all_goals simp [Event.handed_xadj]

/-- The copy-out lambdas hand no buffer to the backend. -/
theorem export_rowmap_handed (m : Int) (rows_start columns : List Int) (values : List V)
    (mem : Mem V) :
    (export_rowmap m rows_start columns values mem : Run V H).trace.filterMap Event.handed_xadj = [] := by
  simp only [export_rowmap]
  split_ifs
  · repeat' split
    all_goals simp [Event.handed_xadj]
  · simp

/-- The copy-out lambda of the numeric phase hands no buffer to the backend. -/
theorem export_values_handed (m : Int) (rows_start columns : List Int) (values : List V)
    (mem : Mem V) :
    (export_values m rows_start columns values mem : Run V H).trace.filterMap Event.handed_xadj = [] := by
  simp only [export_values]
  split_ifs
  · repeat' split
    all_goals simp [Event.handed_xadj]
  · simp

/-- The row-pointer buffers that `apply` hands to the backend are, in order, the bridged
buffer of A and then the bridged buffer of B (none, or only the first, when the call
stops early). -/
theorem apply_handed (cfg : Config) (bk : Backend V H) (m n k : Int)
    (row_mapA entriesA : List Int) (valuesA : List V) (transposeA : Bool)
    (row_mapB entriesB : List Int) (valuesB : List V) (transposeB : Bool)
    (callback : Int → List Int → List Int → List V → Mem V → Run V H) (mem : Mem V)
    (hcb : ∀ a b c d e, (callback a b c d e).trace.filterMap Event.handed_xadj = []) :
    (apply cfg bk m n k row_mapA entriesA valuesA transposeA
        row_mapB entriesB valuesB transposeB callback mem).trace.filterMap Event.handed_xadj
      = [] ∨
    (apply cfg bk m n k row_mapA entriesA valuesA transposeA
        row_mapB entriesB valuesB transposeB callback mem).trace.filterMap Event.handed_xadj
      = [(.A, (bridge cfg m n row_mapA entriesA row_mapB entriesB : Bridged V H).a_xadj)] ∨
    (apply cfg bk m n k row_mapA entriesA valuesA transposeA
        row_mapB entriesB valuesB transposeB callback mem).trace.filterMap Event.handed_xadj
      = [(.A, (bridge cfg m n row_mapA entriesA row_mapB entriesB : Bridged V H).a_xadj),
         (.B, (bridge cfg m n row_mapA entriesA row_mapB entriesB : Bridged V H).b_xadj)] := by
  have hb := bridge_handed (V := V) (H := H) cfg m n row_mapA entriesA row_mapB entriesB
  have hd := destroy_all_handed (V := V) bk
  unfold apply
  generalize bridge cfg m n row_mapA entriesA row_mapB entriesB = br at hb ⊢
  cases hl : cfg.lnoIsInt
  · simp
  cases hdg : is_degenerate m n k row_mapA row_mapB with
  | none => simp
  | some b =>
    cases b
    swap
    · simp
    cases hbs : br.status with
    | error e1 => simp [hbs, hb]
    | success =>
      cases hcA : MKLSparseMatrix.create bk m n br.a_xadj entriesA valuesA with
      | error e1 => simp [hbs, hcA, List.filterMap_append, hb, Event.handed_xadj]
      | ok hA =>
        cases hcB : MKLSparseMatrix.create bk n k br.b_xadj entriesB valuesB with
        | error e1 => simp [hbs, hcA, hcB, List.filterMap_append, hb, Event.handed_xadj]
        | ok hB =>
          cases hop : operation transposeA transposeB with
          | none => simp [hbs, hcA, hcB, hop, List.filterMap_append, hb, Event.handed_xadj]
          | some op =>
            cases hmul : MKLSparseMatrix.spmm bk op hA hB with
            | error e1 =>
              simp [hbs, hcA, hcB, hop, hmul, List.filterMap_append, hb, Event.handed_xadj]
            | ok hC =>
              cases hget : MKLSparseMatrix.get bk hC with
              | error e1 =>
                simp [hbs, hcA, hcB, hop, hmul, hget, List.filterMap_append, hb,
                  Event.handed_xadj]
              | ok ex =>
                cases hcs : (callback m ex.rows_start ex.columns ex.values mem).status with
                | error e1 =>
                  simp [hbs, hcA, hcB, hop, hmul, hget, hcs, List.filterMap_append, hb, hcb,
                    Event.handed_xadj]
                | success =>
                  simp [hbs, hcA, hcB, hop, hmul, hget, hcs, List.filterMap_append, hb, hcb,
                    hd, Event.handed_xadj]

/-- C1. Whenever A has zero rows, B has zero columns, A has zero entries
(`row_mapA(m) = 0`) or B has zero entries (`row_mapB(n) = 0`), and `row_mapA` holds its
`m + 1` entries, `mkl_symbolic` returns normally, records nnz 0 in the kernel handle,
leaves the output row pointer with its extent and every entry zero, and creates no native
handle (it makes no backend call and performs no other event at all). -/
theorem mkl_symbolic_empty_operand (cfg : Config) (bk : Backend V H) (mem : Mem V)
    (m n k : Int) (row_mapA entriesA : List Int) (transposeA : Bool)
    (row_mapB entriesB : List Int) (transposeB : Bool) (tmp_values : List V)
    (hA : m.toNat < row_mapA.length)
    (h : m = 0 ∨ k = 0 ∨ row_mapA[m.toNat]? = some 0 ∨ row_mapB[n.toNat]? = some 0) :
    (mkl_symbolic cfg bk mem m n k row_mapA entriesA transposeA
        row_mapB entriesB transposeB tmp_values).status = .success ∧
    (mkl_symbolic cfg bk mem m n k row_mapA entriesA transposeA
        row_mapB entriesB transposeB tmp_values).out.handle.c_nnz = 0 ∧
    (mkl_symbolic cfg bk mem m n k row_mapA entriesA transposeA
        row_mapB entriesB transposeB tmp_values).out.row_mapC
      = List.replicate mem.row_mapC.length 0 ∧
    creations (mkl_symbolic cfg bk mem m n k row_mapA entriesA transposeA
        row_mapB entriesB transposeB tmp_values).trace = 0 ∧
    (mkl_symbolic cfg bk mem m n k row_mapA entriesA transposeA
        row_mapB entriesB transposeB tmp_values).trace = [] := by
  simp [mkl_symbolic, is_degenerate_of_empty hA h, KernelHandle.set_c_nnz, creations]

/-- Witness for C1: A is 2x2 with no entry, B is the 2x2 identity; the output row
pointer `[7, 7, 7]` becomes `[0, 0, 0]`. -/
theorem mkl_symbolic_empty_operand_witness :
    (mkl_symbolic ⟨true, false⟩ Mock.backend (Mock.mem0 3 0) 2 2 2 [0, 0, 0] [] false
        [0, 1, 2] [0, 1] false [5, 5]).status = .success ∧
    (mkl_symbolic ⟨true, false⟩ Mock.backend (Mock.mem0 3 0) 2 2 2 [0, 0, 0] [] false
        [0, 1, 2] [0, 1] false [5, 5]).out.handle.c_nnz = 0 ∧
    (mkl_symbolic ⟨true, false⟩ Mock.backend (Mock.mem0 3 0) 2 2 2 [0, 0, 0] [] false
        [0, 1, 2] [0, 1] false [5, 5]).out.row_mapC = List.replicate (Mock.mem0 3 0).row_mapC.length 0 ∧
    creations (mkl_symbolic ⟨true, false⟩ Mock.backend (Mock.mem0 3 0) 2 2 2 [0, 0, 0] []
        false [0, 1, 2] [0, 1] false [5, 5]).trace = 0 ∧
    (mkl_symbolic ⟨true, false⟩ Mock.backend (Mock.mem0 3 0) 2 2 2 [0, 0, 0] [] false
        [0, 1, 2] [0, 1] false [5, 5]).trace = [] :=
  mkl_symbolic_empty_operand ⟨true, false⟩ Mock.backend (Mock.mem0 3 0) 2 2 2 [0, 0, 0] []
    false [0, 1, 2] [0, 1] false [5, 5] (by decide) (by decide)

/-- C2. The code breaks the claim on its error paths: on a mixed transpose pair with a
backend that never fails, each phase throws having created the handles of A and B and
having destroyed none; with a backend whose multiply reports a failure the same two
handles are left undestroyed. -/
theorem handle_leak_on_error_paths :
    (mkl_symbolic ⟨true, false⟩ Mock.backend (Mock.mem0 3 2) 2 2 2 [0, 1, 2] [0, 1] true
        [0, 1, 2] [0, 1] false [9, 9]).status = .error .illegalTranspose ∧
    creations (mkl_symbolic ⟨true, false⟩ Mock.backend (Mock.mem0 3 2) 2 2 2 [0, 1, 2]
        [0, 1] true [0, 1, 2] [0, 1] false [9, 9]).trace = 2 ∧
    destroys (mkl_symbolic ⟨true, false⟩ Mock.backend (Mock.mem0 3 2) 2 2 2 [0, 1, 2]
        [0, 1] true [0, 1, 2] [0, 1] false [9, 9]).trace = 0 ∧
    creations (mkl_numeric ⟨true, false⟩ Mock.backend (Mock.mem0 3 2) 2 2 2 [0, 1, 2]
        [0, 1] [1, 1] true [0, 1, 2] [0, 1] [1, 1] false).trace = 2 ∧
    destroys (mkl_numeric ⟨true, false⟩ Mock.backend (Mock.mem0 3 2) 2 2 2 [0, 1, 2]
        [0, 1] [1, 1] true [0, 1, 2] [0, 1] [1, 1] false).trace = 0 ∧
    (mkl_symbolic ⟨true, false⟩ Mock.spmm_fails (Mock.mem0 3 2) 2 2 2 [0, 1, 2] [0, 1] false
        [0, 1, 2] [0, 1] false [9, 9]).status = .error .spmmFailed ∧
    creations (mkl_symbolic ⟨true, false⟩ Mock.spmm_fails (Mock.mem0 3 2) 2 2 2 [0, 1, 2]
        [0, 1] false [0, 1, 2] [0, 1] false [9, 9]).trace = 2 ∧
    destroys (mkl_symbolic ⟨true, false⟩ Mock.spmm_fails (Mock.mem0 3 2) 2 2 2 [0, 1, 2]
        [0, 1] false [0, 1, 2] [0, 1] false [9, 9]).trace = 0 ∧
    creations (mkl_numeric ⟨true, false⟩ Mock.spmm_fails (Mock.mem0 3 2) 2 2 2 [0, 1, 2]
        [0, 1] [1, 1] false [0, 1, 2] [0, 1] [1, 1] false).trace = 2 ∧
    destroys (mkl_numeric ⟨true, false⟩ Mock.spmm_fails (Mock.mem0 3 2) 2 2 2 [0, 1, 2]
        [0, 1] [1, 1] false [0, 1, 2] [0, 1] [1, 1] false).trace = 0 := by
  decide

/-- Handle balance where the code does keep it: in both phases, on every exit path the
destroy calls never outnumber the native handles created, and on every normal return the
two numbers are equal. -/
theorem handle_balance_on_return (cfg : Config) (bk : Backend V H) (mem : Mem V)
    (m n k : Int) (row_mapA entriesA : List Int) (valuesA : List V) (transposeA : Bool)
    (row_mapB entriesB : List Int) (valuesB : List V) (transposeB : Bool)
    (tmp_values : List V) :
    (destroys (mkl_symbolic cfg bk mem m n k row_mapA entriesA transposeA
          row_mapB entriesB transposeB tmp_values).trace
        ≤ creations (mkl_symbolic cfg bk mem m n k row_mapA entriesA transposeA
          row_mapB entriesB transposeB tmp_values).trace ∧
      ((mkl_symbolic cfg bk mem m n k row_mapA entriesA transposeA
          row_mapB entriesB transposeB tmp_values).status = .success →
        creations (mkl_symbolic cfg bk mem m n k row_mapA entriesA transposeA
          row_mapB entriesB transposeB tmp_values).trace
        = destroys (mkl_symbolic cfg bk mem m n k row_mapA entriesA transposeA
          row_mapB entriesB transposeB tmp_values).trace)) ∧
    (destroys (mkl_numeric cfg bk mem m n k row_mapA entriesA valuesA transposeA
          row_mapB entriesB valuesB transposeB).trace
        ≤ creations (mkl_numeric cfg bk mem m n k row_mapA entriesA valuesA transposeA
          row_mapB entriesB valuesB transposeB).trace ∧
      ((mkl_numeric cfg bk mem m n k row_mapA entriesA valuesA transposeA
          row_mapB entriesB valuesB transposeB).status = .success →
        creations (mkl_numeric cfg bk mem m n k row_mapA entriesA valuesA transposeA
          row_mapB entriesB valuesB transposeB).trace
        = destroys (mkl_numeric cfg bk mem m n k row_mapA entriesA valuesA transposeA
          row_mapB entriesB valuesB transposeB).trace)) := by
  constructor
  · unfold mkl_symbolic
    split
    · simp [creations, destroys]
    · simp [creations, destroys]
    · have hb := apply_balance cfg bk m n k row_mapA entriesA tmp_values transposeA
        row_mapB entriesB tmp_values transposeB export_rowmap mem
        (fun a b c d e => ⟨(export_rowmap_no_backend a b c d e).1,
          (export_rowmap_no_backend a b c d e).2.1⟩)
      simpa [creations, destroys, Event.isCreation, Event.isDestroy] using hb
  · exact apply_balance cfg bk m n k row_mapA entriesA valuesA transposeA
      row_mapB entriesB valuesB transposeB export_values mem
      (fun a b c d e => ⟨(export_values_no_backend a b c d e).1,
        (export_values_no_backend a b c d e).2.1⟩)

/-- Handle balance on a concrete normal return: with the correct backend and A = B =
2x2 identity the symbolic phase creates three handles and makes three destroy calls. -/
theorem handle_balance_on_return_witness :
    (mkl_symbolic ⟨true, false⟩ Mock.backend (Mock.mem0 3 2) 2 2 2 [0, 1, 2] [0, 1] false
        [0, 1, 2] [0, 1] false [9, 9]).status = .success ∧
    destroys (mkl_symbolic ⟨true, false⟩ Mock.backend (Mock.mem0 3 2) 2 2 2 [0, 1, 2] [0, 1]
        false [0, 1, 2] [0, 1] false [9, 9]).trace = 3 ∧
    creations (mkl_symbolic ⟨true, false⟩ Mock.backend (Mock.mem0 3 2) 2 2 2 [0, 1, 2]
        [0, 1] false [0, 1, 2] [0, 1] false [9, 9]).trace
      = destroys (mkl_symbolic ⟨true, false⟩ Mock.backend (Mock.mem0 3 2) 2 2 2 [0, 1, 2]
        [0, 1] false [0, 1, 2] [0, 1] false [9, 9]).trace :=
  ⟨by decide, by decide,
   (handle_balance_on_return ⟨true, false⟩ Mock.backend (Mock.mem0 3 2) 2 2 2 [0, 1, 2]
      [0, 1] [1, 1] false [0, 1, 2] [0, 1] [1, 1] false [9, 9]).1.2 (by decide)⟩

/-- C3, as stated, fails: on a mixed transpose pair both phases do end with the
illegal-transpose error, but only after two backend calls, which created the handles of
A and B. -/
theorem illegal_transpose_not_before_backend :
    (mkl_symbolic ⟨true, false⟩ Mock.backend (Mock.mem0 3 2) 2 2 2 [0, 1, 2] [0, 1] true
        [0, 1, 2] [0, 1] false [9, 9]).status = .error .illegalTranspose ∧
    backend_calls (mkl_symbolic ⟨true, false⟩ Mock.backend (Mock.mem0 3 2) 2 2 2 [0, 1, 2]
        [0, 1] true [0, 1, 2] [0, 1] false [9, 9]).trace
      = [.create_csr .A 2 2 [0, 1, 2] [0, 1] [9, 9] true,
         .create_csr .B 2 2 [0, 1, 2] [0, 1] [9, 9] true] ∧
    (mkl_numeric ⟨true, false⟩ Mock.backend (Mock.mem0 3 2) 2 2 2 [0, 1, 2] [0, 1] [1, 1] true
        [0, 1, 2] [0, 1] [1, 1] false).status = .error .illegalTranspose ∧
    backend_calls (mkl_numeric ⟨true, false⟩ Mock.backend (Mock.mem0 3 2) 2 2 2 [0, 1, 2]
        [0, 1] [1, 1] true [0, 1, 2] [0, 1] [1, 1] false).trace
      = [.create_csr .A 2 2 [0, 1, 2] [0, 1] [1, 1] true,
         .create_csr .B 2 2 [0, 1, 2] [0, 1] [1, 1] true] := by
  decide

/-- C3, amended. For a non-degenerate input with `transposeA ≠ transposeB`, with `int`
local ordinals, a passing overflow guard (or `size_type = int`) and a backend whose
handle creation succeeds, both phases fail with the illegal-transpose error; at that
moment the backend calls made, destroy calls left aside, are exactly the two creations
of the handles of A and B (no multiply, no export), and the caller memory is as it
was. -/
theorem illegal_transpose_after_create (cfg : Config) (bk : Backend V H) (mem : Mem V)
    (m n k : Int) (row_mapA entriesA : List Int) (valuesA : List V) (transposeA : Bool)
    (row_mapB entriesB : List Int) (valuesB : List V) (transposeB : Bool)
    (tmp_values : List V)
    (hl : cfg.lnoIsInt = true)
    (hnd : is_degenerate m n k row_mapA row_mapB = some false)
    (hguard : cfg.sizeIsInt = true ∨
      ((entriesA.length : Int) ≤ max_integer ∧ (entriesB.length : Int) ≤ max_integer ∧
        (row_mapA.length : Int) = m + 1 ∧ (row_mapB.length : Int) = n + 1))
    (hcreate : ∀ r c x a v, bk.create_csr r c x a v ≠ none)
    (ht : transposeA ≠ transposeB)
    (rs rn : Run V H)
    (hrs : rs = mkl_symbolic cfg bk mem m n k row_mapA entriesA transposeA
      row_mapB entriesB transposeB tmp_values)
    (hrn : rn = mkl_numeric cfg bk mem m n k row_mapA entriesA valuesA transposeA
      row_mapB entriesB valuesB transposeB) :
    rs.status = .error .illegalTranspose ∧
    (backend_calls rs.trace).filter (fun e => !e.isDestroy)
      = [.create_csr .A m n
            (bridge cfg m n row_mapA entriesA row_mapB entriesB : Bridged V H).a_xadj
            entriesA tmp_values true,
         .create_csr .B n k
            (bridge cfg m n row_mapA entriesA row_mapB entriesB : Bridged V H).b_xadj
            entriesB tmp_values true] ∧
    rs.out = mem ∧
    rn.status = .error .illegalTranspose ∧
    (backend_calls rn.trace).filter (fun e => !e.isDestroy)
      = [.create_csr .A m n
            (bridge cfg m n row_mapA entriesA row_mapB entriesB : Bridged V H).a_xadj
            entriesA valuesA true,
         .create_csr .B n k
            (bridge cfg m n row_mapA entriesA row_mapB entriesB : Bridged V H).b_xadj
            entriesB valuesB true] ∧
    rn.out = mem := by
  have hbr := bridge_success (V := V) (H := H) hguard
  obtain ⟨s1, s2, s3⟩ := apply_illegal_transpose cfg bk m n k row_mapA entriesA tmp_values
    transposeA row_mapB entriesB tmp_values transposeB export_rowmap mem hl hnd hbr hcreate ht
  obtain ⟨n1, n2, n3⟩ := apply_illegal_transpose cfg bk m n k row_mapA entriesA valuesA
    transposeA row_mapB entriesB valuesB transposeB export_values mem hl hnd hbr hcreate ht
  subst hrs hrn
  refine ⟨?_, ?_, ?_, n1, ?_, n3⟩
  · simp [mkl_symbolic, hnd, s1]
  · simp only [backend_calls] at s2
    simp [mkl_symbolic, hnd, backend_calls, Event.isBackendCall, s2, Event.isDestroy]
  · simp [mkl_symbolic, hnd, s3]
  · simp [mkl_numeric, n2, Event.isDestroy]

/-- Witness for C3 (amended): A = B = 2x2 identity, transpose of A only, correct
backend, `size_type` wider than `int`. -/
theorem illegal_transpose_after_create_witness :
    (mkl_symbolic ⟨true, false⟩ Mock.backend (Mock.mem0 3 2) 2 2 2 [0, 1, 2] [0, 1] true
        [0, 1, 2] [0, 1] false [9, 9]).status = .error .illegalTranspose ∧
    (mkl_numeric ⟨true, false⟩ Mock.backend (Mock.mem0 3 2) 2 2 2 [0, 1, 2] [0, 1] [1, 1] true
        [0, 1, 2] [0, 1] [1, 1] false).out = Mock.mem0 3 2 :=
  have h := illegal_transpose_after_create ⟨true, false⟩ Mock.backend (Mock.mem0 3 2) 2 2 2
    [0, 1, 2] [0, 1] [1, 1] true [0, 1, 2] [0, 1] [1, 1] false [9, 9] rfl (by decide)
    (Or.inr (by decide)) (by intro r c x a v; simp [Mock.backend]) (by decide) _ _ rfl rfl
  ⟨h.1, h.2.2.2.2.2⟩

/-- Entry 2^30 of the row pointer of the large B is 2^30. -/
theorem big_row_mapB_last :
    Mock.big_row_mapB[(1073741824 : Int).toNat]? = some 1073741824 := by
  have hi : (1073741824 : Int).toNat = 1073741824 := rfl
  rw [hi]
  unfold Mock.big_row_mapB
  rw [List.getElem?_map, List.getElem?_range (by decide)]
  rfl

/-- The 2 x 2^30 by 2^30 x 1 product is not a degenerate input. -/
theorem big_not_degenerate :
    is_degenerate 2 1073741824 1 Mock.big_row_mapA Mock.big_row_mapB = some false := by
  have hA : Mock.big_row_mapA[(2 : Int).toNat]? = some 2147483648 := rfl
  unfold is_degenerate
  rw [if_neg (by decide), hA, big_row_mapB_last]
  rfl

/-- The large A has 2^31 entries. -/
theorem big_entriesA_length : Mock.big_entriesA.length = 2147483648 := by
  unfold Mock.big_entriesA
  rw [List.length_append, List.length_map, List.length_range]

/-- The first operand of that product has more than `max_integer` entries. -/
theorem big_entries_overflow :
    (Mock.big_entriesA.length : Int) > max_integer ∨
    (Mock.big_entriesB.length : Int) > max_integer := by
  left
  rw [big_entriesA_length]
  decide

/-- C4, as stated, fails: when the local ordinal type is not `int` either, a
non-degenerate input with 2^31 entries in A and a `size_type` wider than `int` is
rejected by the ordinal-type test, which comes first, and not with the overflow error. -/
theorem overflow_error_needs_int_ordinals :
    (mkl_numeric ⟨false, false⟩ Mock.backend (Mock.mem0 3 0) 2 1073741824 1
        Mock.big_row_mapA Mock.big_entriesA Mock.big_valuesA false
        Mock.big_row_mapB Mock.big_entriesB Mock.big_valuesB false).status
      = .error .ordinalNotInt ∧
    (mkl_symbolic ⟨false, false⟩ Mock.backend (Mock.mem0 3 0) 2 1073741824 1
        Mock.big_row_mapA Mock.big_entriesA false
        Mock.big_row_mapB Mock.big_entriesB false Mock.big_tmp_values).status
      = .error .ordinalNotInt :=
  ⟨(ordinal_guard_first ⟨false, false⟩ Mock.backend (Mock.mem0 3 0) 2 1073741824 1
      Mock.big_row_mapA Mock.big_entriesA Mock.big_valuesA false
      Mock.big_row_mapB Mock.big_entriesB Mock.big_valuesB false Mock.big_tmp_values
      rfl big_not_degenerate).2,
   (ordinal_guard_first ⟨false, false⟩ Mock.backend (Mock.mem0 3 0) 2 1073741824 1
      Mock.big_row_mapA Mock.big_entriesA Mock.big_valuesA false
      Mock.big_row_mapB Mock.big_entriesB Mock.big_valuesB false Mock.big_tmp_values
      rfl big_not_degenerate).1⟩

/-- C4, amended. For a non-degenerate input with a `size_type` wider than `int` and more
than `max_integer` entries in A or in B, both phases fail without any allocation of or
copy into a narrowed row-map buffer, without any backend call (so no handle is created)
and with the caller memory as it was; the error is the overflow error when the local
ordinal type is `int`, and the ordinal-type error otherwise. -/
theorem overflow_guard_stops_call (cfg : Config) (bk : Backend V H) (mem : Mem V)
    (m n k : Int) (row_mapA entriesA : List Int) (valuesA : List V) (transposeA : Bool)
    (row_mapB entriesB : List Int) (valuesB : List V) (transposeB : Bool)
    (tmp_values : List V)
    (hnd : is_degenerate m n k row_mapA row_mapB = some false)
    (hs : cfg.sizeIsInt = false)
    (hbig : (entriesA.length : Int) > max_integer ∨ (entriesB.length : Int) > max_integer)
    (rs rn : Run V H)
    (hrs : rs = mkl_symbolic cfg bk mem m n k row_mapA entriesA transposeA
      row_mapB entriesB transposeB tmp_values)
    (hrn : rn = mkl_numeric cfg bk mem m n k row_mapA entriesA valuesA transposeA
      row_mapB entriesB valuesB transposeB) :
    (cfg.lnoIsInt = true → rs.status = .error .overflow ∧ rn.status = .error .overflow) ∧
    (cfg.lnoIsInt = false →
      rs.status = .error .ordinalNotInt ∧ rn.status = .error .ordinalNotInt) ∧
    rs.trace.filter Event.isRowmapBridge = [] ∧ rn.trace.filter Event.isRowmapBridge = [] ∧
    backend_calls rs.trace = [] ∧ backend_calls rn.trace = [] ∧
    creations rs.trace = 0 ∧ creations rn.trace = 0 ∧
    rs.out = mem ∧ rn.out = mem := by
  obtain ⟨s1, s2, s3⟩ := apply_overflow cfg bk m n k row_mapA entriesA tmp_values
    transposeA row_mapB entriesB tmp_values transposeB export_rowmap mem hnd hs hbig
  obtain ⟨n1, n2, n3⟩ := apply_overflow cfg bk m n k row_mapA entriesA valuesA
    transposeA row_mapB entriesB valuesB transposeB export_values mem hnd hs hbig
  subst hrs hrn
  cases hl : cfg.lnoIsInt <;>
    simp [mkl_symbolic, mkl_numeric, hnd, hl, s1, s2, s3, n1, n2, n3, backend_calls,
      creations, Event.isRowmapBridge, Event.isBackendCall, Event.isCreation] at *

/-- Witness for C4 (amended): the 2 x 2^30 by 2^30 x 1 product with `int` ordinals and a
wider `size_type`; A has 2^31 entries. -/
theorem overflow_guard_stops_call_witness :
    is_degenerate 2 1073741824 1 Mock.big_row_mapA Mock.big_row_mapB = some false ∧
    (mkl_symbolic ⟨true, false⟩ Mock.backend (Mock.mem0 3 0) 2 1073741824 1
        Mock.big_row_mapA Mock.big_entriesA false
        Mock.big_row_mapB Mock.big_entriesB false Mock.big_tmp_values).status
      = .error .overflow ∧
    (mkl_numeric ⟨true, false⟩ Mock.backend (Mock.mem0 3 0) 2 1073741824 1
        Mock.big_row_mapA Mock.big_entriesA Mock.big_valuesA false
        Mock.big_row_mapB Mock.big_entriesB Mock.big_valuesB false).status
      = .error .overflow :=
  ⟨big_not_degenerate,
   (overflow_guard_stops_call ⟨true, false⟩ Mock.backend (Mock.mem0 3 0) 2 1073741824 1
      Mock.big_row_mapA Mock.big_entriesA Mock.big_valuesA false
      Mock.big_row_mapB Mock.big_entriesB Mock.big_valuesB false
      Mock.big_tmp_values big_not_degenerate rfl big_entries_overflow
      _ _ rfl rfl).1 rfl⟩

/-- C5, as stated, fails: with a backend whose destroy reports a failure, the symbolic
phase ends in an error after it has overwritten the output row pointer and the recorded
nnz, and the numeric phase ends in an error after it has overwritten the output column
and value buffers. -/
theorem output_written_before_destroy_error :
    (mkl_symbolic ⟨true, false⟩ Mock.destroy_fails (Mock.mem0 3 2) 2 2 2 [0, 1, 2] [0, 1]
        false [0, 1, 2] [0, 1] false [9, 9]).status = .error .destroyFailed ∧
    (Mock.mem0 3 2).row_mapC = [7, 7, 7] ∧ (Mock.mem0 3 2).handle.c_nnz = 0 ∧
    (mkl_symbolic ⟨true, false⟩ Mock.destroy_fails (Mock.mem0 3 2) 2 2 2 [0, 1, 2] [0, 1]
        false [0, 1, 2] [0, 1] false [9, 9]).out.row_mapC = [0, 1, 2] ∧
    (mkl_symbolic ⟨true, false⟩ Mock.destroy_fails (Mock.mem0 3 2) 2 2 2 [0, 1, 2] [0, 1]
        false [0, 1, 2] [0, 1] false [9, 9]).out.handle.c_nnz = 2 ∧
    (mkl_numeric ⟨true, false⟩ Mock.destroy_fails (Mock.mem0 3 2) 2 2 2 [0, 1, 2] [0, 1]
        [1, 1] false [0, 1, 2] [0, 1] [1, 1] false).status = .error .destroyFailed ∧
    (Mock.mem0 3 2).entriesC = [7, 7] ∧ (Mock.mem0 3 2).valuesC = [7, 7] ∧
    (mkl_numeric ⟨true, false⟩ Mock.destroy_fails (Mock.mem0 3 2) 2 2 2 [0, 1, 2] [0, 1]
        [1, 1] false [0, 1, 2] [0, 1] [1, 1] false).out.entriesC = [0, 1] ∧
    (mkl_numeric ⟨true, false⟩ Mock.destroy_fails (Mock.mem0 3 2) 2 2 2 [0, 1, 2] [0, 1]
        [1, 1] false [0, 1, 2] [0, 1] [1, 1] false).out.valuesC = [1, 1] := by
  decide

/-- C5, amended. A call of either phase that ends in an error raised before the copy-out
(the ordinal-type test, the overflow guard, a handle creation, the transpose test, the
multiply, the export or its index-base test: every error except a destroy failure and a
bounds violation) leaves the whole caller memory, kernel handle and the three output
buffers, exactly as it was. -/
theorem error_before_copy_leaves_output (cfg : Config) (bk : Backend V H) (mem : Mem V)
    (m n k : Int) (row_mapA entriesA : List Int) (valuesA : List V) (transposeA : Bool)
    (row_mapB entriesB : List Int) (valuesB : List V) (transposeB : Bool)
    (tmp_values : List V) (e : Err) (h1 : e ≠ .destroyFailed) (h2 : e ≠ .viewBounds) :
    ((mkl_symbolic cfg bk mem m n k row_mapA entriesA transposeA
          row_mapB entriesB transposeB tmp_values).status = .error e →
      (mkl_symbolic cfg bk mem m n k row_mapA entriesA transposeA
          row_mapB entriesB transposeB tmp_values).out = mem) ∧
    ((mkl_numeric cfg bk mem m n k row_mapA entriesA valuesA transposeA
          row_mapB entriesB valuesB transposeB).status = .error e →
      (mkl_numeric cfg bk mem m n k row_mapA entriesA valuesA transposeA
          row_mapB entriesB valuesB transposeB).out = mem) := by
  constructor
  · unfold mkl_symbolic
    split
    · simp
    · simp
    · intro he
      exact apply_error_untouched cfg bk m n k row_mapA entriesA tmp_values transposeA
        row_mapB entriesB tmp_values transposeB export_rowmap mem
        (fun a b c d x e1 h => export_rowmap_error a b c d x e1 h) e he h1 h2
  · intro he
    exact apply_error_untouched cfg bk m n k row_mapA entriesA valuesA transposeA
      row_mapB entriesB valuesB transposeB export_values mem
      (fun a b c d x e1 h => export_values_error a b c d x e1 h) e he h1 h2

/-- Witness for C5 (amended): with a backend whose multiply fails, the symbolic phase
ends in the multiply error and the caller memory is unchanged. -/
theorem error_before_copy_leaves_output_witness :
    (mkl_symbolic ⟨true, false⟩ Mock.spmm_fails (Mock.mem0 3 2) 2 2 2 [0, 1, 2] [0, 1] false
        [0, 1, 2] [0, 1] false [9, 9]).status = .error .spmmFailed ∧
    (mkl_symbolic ⟨true, false⟩ Mock.spmm_fails (Mock.mem0 3 2) 2 2 2 [0, 1, 2] [0, 1] false
        [0, 1, 2] [0, 1] false [9, 9]).out = Mock.mem0 3 2 :=
  ⟨by decide,
   (error_before_copy_leaves_output ⟨true, false⟩ Mock.spmm_fails (Mock.mem0 3 2) 2 2 2
      [0, 1, 2] [0, 1] [1, 1] false [0, 1, 2] [0, 1] [1, 1] false [9, 9] .spmmFailed
      (by decide) (by decide)).1 (by decide)⟩

/-- C9, as stated, fails: with a local ordinal type other than `int`, an input with
zero rows in A is accepted as empty by the symbolic phase, while the numeric phase
throws the ordinal-type error on it. -/
theorem numeric_on_empty_needs_int_ordinals :
    (mkl_symbolic ⟨false, false⟩ Mock.backend (Mock.mem0 1 0) 0 1 1 [0] [] false
        [0, 0] [] false []).status = .success ∧
    (mkl_numeric ⟨false, false⟩ Mock.backend (Mock.mem0 1 0) 0 1 1 [0] [] [] false
        [0, 0] [] [] false).status = .error .ordinalNotInt := by
  decide

/-- C9, amended. On every input that the symbolic phase treats as empty (A has zero
rows, B has zero columns, or an operand has zero entries, `row_mapA` holding its `m + 1`
entries) the numeric phase makes no backend call, performs no event at all and leaves
the caller memory as it was; it returns normally when the local ordinal type is `int`
and throws the ordinal-type error otherwise. -/
theorem mkl_numeric_empty_operand (cfg : Config) (bk : Backend V H) (mem : Mem V)
    (m n k : Int) (row_mapA entriesA : List Int) (valuesA : List V) (transposeA : Bool)
    (row_mapB entriesB : List Int) (valuesB : List V) (transposeB : Bool)
    (hA : m.toNat < row_mapA.length)
    (h : m = 0 ∨ k = 0 ∨ row_mapA[m.toNat]? = some 0 ∨ row_mapB[n.toNat]? = some 0) :
    (mkl_numeric cfg bk mem m n k row_mapA entriesA valuesA transposeA
        row_mapB entriesB valuesB transposeB).status
      = (if cfg.lnoIsInt then .success else .error .ordinalNotInt) ∧
    (mkl_numeric cfg bk mem m n k row_mapA entriesA valuesA transposeA
        row_mapB entriesB valuesB transposeB).trace = [] ∧
    backend_calls (mkl_numeric cfg bk mem m n k row_mapA entriesA valuesA transposeA
        row_mapB entriesB valuesB transposeB).trace = [] ∧
    (mkl_numeric cfg bk mem m n k row_mapA entriesA valuesA transposeA
        row_mapB entriesB valuesB transposeB).out = mem := by
  cases hl : cfg.lnoIsInt <;>
    simp [mkl_numeric, apply, hl, is_degenerate_of_empty hA h, backend_calls]

/-- Witness for C9 (amended): A is 2x2 with no entry, B the 2x2 identity, `int`
ordinals: the numeric phase returns normally and leaves the buffers alone. -/
theorem mkl_numeric_empty_operand_witness :
    (mkl_numeric ⟨true, false⟩ Mock.backend (Mock.mem0 3 0) 2 2 2 [0, 0, 0] [] [] false
        [0, 1, 2] [0, 1] [1, 1] false).status = .success ∧
    (mkl_numeric ⟨true, false⟩ Mock.backend (Mock.mem0 3 0) 2 2 2 [0, 0, 0] [] [] false
        [0, 1, 2] [0, 1] [1, 1] false).out = Mock.mem0 3 0 :=
  have h := mkl_numeric_empty_operand ⟨true, false⟩ Mock.backend (Mock.mem0 3 0) 2 2 2
    [0, 0, 0] [] [] false [0, 1, 2] [0, 1] [1, 1] false (by decide) (by decide)
  ⟨h.1, h.2.2.2⟩

/-- C10, as stated, fails: with one row in A and zero columns in B the symbolic phase
succeeds at once, and the output row pointer is `[0, 0]`, not the one-entry `[0]`. -/
theorem zero_dimension_row_pointer_not_minimal :
    (mkl_symbolic ⟨true, false⟩ Mock.backend (Mock.mem0 2 0) 1 1 0 [0, 1] [0] false
        [0, 0] [] false [9]).status = .success ∧
    (mkl_symbolic ⟨true, false⟩ Mock.backend (Mock.mem0 2 0) 1 1 0 [0, 1] [0] false
        [0, 0] [] false [9]).out.row_mapC = [0, 0] ∧
    (mkl_symbolic ⟨true, false⟩ Mock.backend (Mock.mem0 2 0) 1 1 0 [0, 1] [0] false
        [0, 0] [] false [9]).out.row_mapC ≠ [0] := by
  decide

/-- C10, amended. When `m = 0`, `n = 0` or `k = 0` the symbolic phase returns normally
with no backend interaction (no event at all) and nnz 0; the output row pointer keeps
its extent and holds only zeros, so it is the minimal `[0]` exactly when its extent is
one, which is the case `m = 0` of a row pointer of extent `m + 1`. -/
theorem mkl_symbolic_zero_dimension (cfg : Config) (bk : Backend V H) (mem : Mem V)
    (m n k : Int) (row_mapA entriesA : List Int) (transposeA : Bool)
    (row_mapB entriesB : List Int) (transposeB : Bool) (tmp_values : List V)
    (h : m = 0 ∨ n = 0 ∨ k = 0) :
    (mkl_symbolic cfg bk mem m n k row_mapA entriesA transposeA
        row_mapB entriesB transposeB tmp_values).status = .success ∧
    (mkl_symbolic cfg bk mem m n k row_mapA entriesA transposeA
        row_mapB entriesB transposeB tmp_values).trace = [] ∧
    (mkl_symbolic cfg bk mem m n k row_mapA entriesA transposeA
        row_mapB entriesB transposeB tmp_values).out.handle.c_nnz = 0 ∧
    (mkl_symbolic cfg bk mem m n k row_mapA entriesA transposeA
        row_mapB entriesB transposeB tmp_values).out.row_mapC
      = List.replicate mem.row_mapC.length 0 ∧
    ((mkl_symbolic cfg bk mem m n k row_mapA entriesA transposeA
        row_mapB entriesB transposeB tmp_values).out.row_mapC = [0]
      ↔ mem.row_mapC.length = 1) ∧
    ((mem.row_mapC.length : Int) = m + 1 →
      ((mkl_symbolic cfg bk mem m n k row_mapA entriesA transposeA
          row_mapB entriesB transposeB tmp_values).out.row_mapC = [0] ↔ m = 0)) := by
  have hd : is_degenerate m n k row_mapA row_mapB = some true :=
    is_degenerate_of_dim row_mapA row_mapB (by omega)
  have hrep : (List.replicate mem.row_mapC.length (0 : Int) = [0]) ↔
      mem.row_mapC.length = 1 := by
    constructor
    · intro hh
      have := congrArg List.length hh
      simpa using this
    · intro hh
      rw [hh]
      rfl
  simp only [mkl_symbolic, hd, KernelHandle.set_c_nnz, hrep]
  refine ⟨trivial, trivial, trivial, trivial, trivial, ?_⟩
  intro hlen
  constructor <;> intro hh <;> omega

/-- Witness for C10 (amended): zero rows in A and a one-entry output row pointer, which
becomes `[0]`. -/
theorem mkl_symbolic_zero_dimension_witness :
    (mkl_symbolic ⟨true, false⟩ Mock.backend (Mock.mem0 1 0) 0 1 1 [0] [] false
        [0, 0] [] false []).status = .success ∧
    (mkl_symbolic ⟨true, false⟩ Mock.backend (Mock.mem0 1 0) 0 1 1 [0] [] false
        [0, 0] [] false []).out.row_mapC = [0] :=
  have h := mkl_symbolic_zero_dimension ⟨true, false⟩ Mock.backend (Mock.mem0 1 0) 0 1 1
    [0] [] false [0, 0] [] false [] (Or.inl rfl)
  ⟨h.1, (h.2.2.2.2.2 (by decide)).mpr rfl⟩

/-- The symbolic phase on an input that fails the overflow guard: the placeholder value
view has been allocated when the guard is evaluated. -/
theorem symbolic_overflow_trace (cfg : Config) (bk : Backend V H) (mem : Mem V)
    (m n k : Int) (row_mapA entriesA : List Int) (transposeA : Bool)
    (row_mapB entriesB : List Int) (transposeB : Bool) (tmp_values : List V)
    (hl : cfg.lnoIsInt = true)
    (hnd : is_degenerate m n k row_mapA row_mapB = some false)
    (hs : cfg.sizeIsInt = false)
    (hbig : (entriesA.length : Int) > max_integer ∨ (entriesB.length : Int) > max_integer) :
    (mkl_symbolic cfg bk mem m n k row_mapA entriesA transposeA
        row_mapB entriesB transposeB tmp_values).status = .error .overflow ∧
    (mkl_symbolic cfg bk mem m n k row_mapA entriesA transposeA
        row_mapB entriesB transposeB tmp_values).trace
      = [.alloc_tmp_values (max entriesA.length entriesB.length), .overflow_guard false] := by
  obtain ⟨s1, s2, -⟩ := apply_overflow cfg bk m n k row_mapA entriesA tmp_values
    transposeA row_mapB entriesB tmp_values transposeB export_rowmap mem hnd hs hbig
  simp [mkl_symbolic, hnd, s1, s2, hl]

/-- C11, as stated, fails for the symbolic phase: on the 2 x 2^30 by 2^30 x 1 product,
whose first operand has 2^31 entries, the call ends in the overflow error and its trace
shows the placeholder value view allocated before the guard is evaluated. -/
theorem placeholder_allocated_before_guard :
    (mkl_symbolic ⟨true, false⟩ Mock.backend (Mock.mem0 3 0) 2 1073741824 1
        Mock.big_row_mapA Mock.big_entriesA false
        Mock.big_row_mapB Mock.big_entriesB false Mock.big_tmp_values).status
      = .error .overflow ∧
    (mkl_symbolic ⟨true, false⟩ Mock.backend (Mock.mem0 3 0) 2 1073741824 1
        Mock.big_row_mapA Mock.big_entriesA false
        Mock.big_row_mapB Mock.big_entriesB false Mock.big_tmp_values).trace
      = [.alloc_tmp_values (max Mock.big_entriesA.length Mock.big_entriesB.length),
         .overflow_guard false] :=
  symbolic_overflow_trace ⟨true, false⟩ Mock.backend (Mock.mem0 3 0) 2 1073741824 1
    Mock.big_row_mapA Mock.big_entriesA false Mock.big_row_mapB Mock.big_entriesB false
    Mock.big_tmp_values rfl big_not_degenerate rfl big_entries_overflow

/-- C11, amended. In both phases the overflow guard is evaluated before any narrowed
row-map buffer is allocated or filled: on every input that reaches the guard (`int`
ordinals, non-degenerate, `size_type` wider than `int`) and fails it, the call ends in
the overflow error with the caller memory as it was, and the guard is the last event.
The numeric phase has done nothing before it; the symbolic phase has done one thing,
the allocation of its placeholder value view, which precedes the call of `apply`. No
narrowed row map has been allocated and nothing has been copied. -/
theorem overflow_guard_before_bridging (cfg : Config) (bk : Backend V H) (mem : Mem V)
    (m n k : Int) (row_mapA entriesA : List Int) (valuesA : List V) (transposeA : Bool)
    (row_mapB entriesB : List Int) (valuesB : List V) (transposeB : Bool)
    (tmp_values : List V)
    (hl : cfg.lnoIsInt = true)
    (hnd : is_degenerate m n k row_mapA row_mapB = some false)
    (hs : cfg.sizeIsInt = false)
    (hbig : (entriesA.length : Int) > max_integer ∨ (entriesB.length : Int) > max_integer)
    (rs rn : Run V H)
    (hrs : rs = mkl_symbolic cfg bk mem m n k row_mapA entriesA transposeA
      row_mapB entriesB transposeB tmp_values)
    (hrn : rn = mkl_numeric cfg bk mem m n k row_mapA entriesA valuesA transposeA
      row_mapB entriesB valuesB transposeB) :
    rs.status = .error .overflow ∧ rn.status = .error .overflow ∧
    rs.trace
      = [.alloc_tmp_values (max entriesA.length entriesB.length), .overflow_guard false] ∧
    rn.trace = [.overflow_guard false] ∧
    rs.trace.filter Event.isRowmapBridge = [] ∧
    rn.trace.filter Event.isScratch = [] ∧
    rs.out = mem ∧ rn.out = mem := by
  obtain ⟨s1, s2, s3⟩ := apply_overflow cfg bk m n k row_mapA entriesA tmp_values
    transposeA row_mapB entriesB tmp_values transposeB export_rowmap mem hnd hs hbig
  obtain ⟨n1, n2, n3⟩ := apply_overflow cfg bk m n k row_mapA entriesA valuesA
    transposeA row_mapB entriesB valuesB transposeB export_values mem hnd hs hbig
  subst hrs hrn
  simp [mkl_symbolic, mkl_numeric, hnd, hl, s1, s2, s3, n1, n2, n3, Event.isRowmapBridge,
    Event.isScratch]

/-- Witness for C11 (amended): the 2 x 2^30 by 2^30 x 1 product with `int` ordinals and
a wider `size_type`; the numeric phase ends in the overflow error with the guard as its
only event. -/
theorem overflow_guard_before_bridging_witness :
    (mkl_numeric ⟨true, false⟩ Mock.backend (Mock.mem0 3 0) 2 1073741824 1
        Mock.big_row_mapA Mock.big_entriesA Mock.big_valuesA false
        Mock.big_row_mapB Mock.big_entriesB Mock.big_valuesB false).status
      = .error .overflow ∧
    (mkl_numeric ⟨true, false⟩ Mock.backend (Mock.mem0 3 0) 2 1073741824 1
        Mock.big_row_mapA Mock.big_entriesA Mock.big_valuesA false
        Mock.big_row_mapB Mock.big_entriesB Mock.big_valuesB false).trace
      = [.overflow_guard false] :=
  have h := overflow_guard_before_bridging ⟨true, false⟩ Mock.backend (Mock.mem0 3 0)
    2 1073741824 1 Mock.big_row_mapA Mock.big_entriesA Mock.big_valuesA false
    Mock.big_row_mapB Mock.big_entriesB Mock.big_valuesB false Mock.big_tmp_values
    rfl big_not_degenerate rfl big_entries_overflow _ _ rfl rfl
  ⟨h.2.1, h.2.2.2.1⟩

/-- C12. When `size_type` is wider than `int`, the overflow guard passes and both row
pointers satisfy the data-model invariant, bridging succeeds after the guard by
allocating `tmpa` and `tmpb` and copying into them; the narrowed buffers have `m + 1`
and `n + 1` elements and are the element-wise conversions of the originals, and no
conversion wraps: each narrowed buffer equals the original row pointer. When
`size_type` is `int`, nothing is allocated or copied and the buffers are the original row
pointers. In both phases the row-pointer buffers handed to the backend are, in order,
the bridged buffer of A and the bridged buffer of B, and no other. -/
theorem narrowed_row_pointers_faithful (cfg : Config) (bk : Backend V H) (mem : Mem V)
    (m n k : Int) (row_mapA entriesA : List Int) (valuesA : List V) (transposeA : Bool)
    (row_mapB entriesB : List Int) (valuesB : List V) (transposeB : Bool)
    (tmp_values : List V) (br : Bridged V H) (rs rn : Run V H)
    (hbr : br = bridge cfg m n row_mapA entriesA row_mapB entriesB)
    (hrs : rs = mkl_symbolic cfg bk mem m n k row_mapA entriesA transposeA
      row_mapB entriesB transposeB tmp_values)
    (hrn : rn = mkl_numeric cfg bk mem m n k row_mapA entriesA valuesA transposeA
      row_mapB entriesB valuesB transposeB) :
    (cfg.sizeIsInt = false →
      (entriesA.length : Int) ≤ max_integer → (entriesB.length : Int) ≤ max_integer →
      csr_row_map m row_mapA entriesA → csr_row_map n row_mapB entriesB →
        br.status = .success ∧
        br.trace = [.overflow_guard true, .alloc_xadj .A (m + 1), .alloc_xadj .B (n + 1),
                    .deep_copy_xadj .A, .deep_copy_xadj .B] ∧
        (br.a_xadj.length : Int) = m + 1 ∧ (br.b_xadj.length : Int) = n + 1 ∧
        br.a_xadj = row_mapA.map narrow ∧ br.b_xadj = row_mapB.map narrow ∧
        (∀ x ∈ row_mapA, narrow x = x) ∧ (∀ x ∈ row_mapB, narrow x = x) ∧
        br.a_xadj = row_mapA ∧ br.b_xadj = row_mapB) ∧
    (cfg.sizeIsInt = true →
      br.status = .success ∧ br.trace = [] ∧
      br.a_xadj = row_mapA ∧ br.b_xadj = row_mapB) ∧
    (rs.trace.filterMap Event.handed_xadj = [] ∨
      rs.trace.filterMap Event.handed_xadj = [(.A, br.a_xadj)] ∨
      rs.trace.filterMap Event.handed_xadj = [(.A, br.a_xadj), (.B, br.b_xadj)]) ∧
    (rn.trace.filterMap Event.handed_xadj = [] ∨
      rn.trace.filterMap Event.handed_xadj = [(.A, br.a_xadj)] ∨
      rn.trace.filterMap Event.handed_xadj = [(.A, br.a_xadj), (.B, br.b_xadj)]) := by
  subst hbr hrs hrn
  refine ⟨?_, ?_, ?_, ?_⟩
  · intro hs hA hB cA cB
    obtain ⟨mA, eA⟩ := map_narrow_csr cA hA
    obtain ⟨mB, eB⟩ := map_narrow_csr cB hB
    have lenA := cA.1
    have lenB := cB.1
    have hb : (bridge cfg m n row_mapA entriesA row_mapB entriesB : Bridged V H)
        = ⟨.success,
           [.overflow_guard true, .alloc_xadj .A (m + 1), .alloc_xadj .B (n + 1),
            .deep_copy_xadj .A, .deep_copy_xadj .B],
           row_mapA.map narrow, row_mapB.map narrow⟩ := by
      unfold bridge
      rw [if_neg (by simp [hs]), if_neg (by omega), if_pos ⟨lenA, lenB⟩]
    rw [hb]
    refine ⟨rfl, rfl, ?_, ?_, rfl, rfl, eA, eB, mA, mB⟩
    · simpa using lenA
    · simpa using lenB
  · intro hs
    simp [bridge, hs]
  · unfold mkl_symbolic
    split
    · simp
    · simp
    · have h := apply_handed cfg bk m n k row_mapA entriesA tmp_values transposeA
        row_mapB entriesB tmp_values transposeB export_rowmap mem export_rowmap_handed
      simpa [Event.handed_xadj] using h
  · exact apply_handed cfg bk m n k row_mapA entriesA valuesA transposeA
      row_mapB entriesB valuesB transposeB export_values mem export_values_handed

/-- Witness for C12: A = B = 2x2 identity, `size_type` wider than `int`: the buffers
handed to the backend by the numeric phase are `[0, 1, 2]` for A and for B. -/
theorem narrowed_row_pointers_faithful_witness :
    csr_row_map 2 [0, 1, 2] [0, 1] ∧
    (bridge ⟨true, false⟩ 2 2 [0, 1, 2] [0, 1] [0, 1, 2] [0, 1] : Bridged Int Csr).a_xadj
      = [0, 1, 2] ∧
    (mkl_numeric ⟨true, false⟩ Mock.backend (Mock.mem0 3 2) 2 2 2 [0, 1, 2] [0, 1] [3, 5]
        false [0, 1, 2] [0, 1] [1, 1] false).trace.filterMap Event.handed_xadj
      = [(.A, [0, 1, 2]), (.B, [0, 1, 2])] :=
  have c : csr_row_map 2 [0, 1, 2] [0, 1] := ⟨by decide, by decide, by decide, by decide⟩
  have h := narrowed_row_pointers_faithful ⟨true, false⟩ Mock.backend (Mock.mem0 3 2)
    2 2 2 [0, 1, 2] [0, 1] [3, 5] false [0, 1, 2] [0, 1] [1, 1] false [9, 9] _ _ _
    rfl rfl rfl
  ⟨c, (h.1 rfl (by decide) (by decide) c c).2.2.2.2.2.2.2.2.1, by decide⟩

end MKLApply

end KokkosSparse.Impl
